import Mathlib

/-!
Verification of the sampler-object core of `pxr/imaging/hdSt/samplerObject.cpp`.

The source file is embedded shallowly: device (OpenGL) calls are recorded as
an explicit trace of `DeviceCall` events, the nondeterministic values returned
by the device (generated sampler names, bindless handles) are supplied by a
`Device` record of oracle functions, and each C++ function or special member
function becomes a Lean function returning its result together with the list
of device calls it issues, in order.
-/

/-- Modelled from the spec: the wrap-mode enum (`HdWrap`, declared in
`pxr/imaging/hd/enums.h`, which is not part of this source tree). The spec
lists its members as Clamp, Repeat, Mirror, Black, NoOpinion and
LegacyNoOpinionFallbackRepeat. -/
inductive HdWrap where
  | HdWrapClamp
  | HdWrapRepeat
  | HdWrapMirror
  | HdWrapBlack
  | HdWrapNoOpinion
  | HdWrapLegacyNoOpinionFallbackRepeat
  deriving DecidableEq, Repr, Fintype

/-- Modelled from the spec: enumerated minification filter modes
(`HdMinFilter`, declared in `pxr/imaging/hd/enums.h`, not part of this source
tree); the spec's end-to-end case names `Linear`. -/
inductive HdMinFilter where
  | HdMinFilterNearest
  | HdMinFilterLinear
  deriving DecidableEq, Repr, Fintype

/-- Modelled from the spec: enumerated magnification filter modes
(`HdMagFilter`, declared in `pxr/imaging/hd/enums.h`, not part of this source
tree); the spec's end-to-end case names `Nearest`. -/
inductive HdMagFilter where
  | HdMagFilterNearest
  | HdMagFilterLinear
  deriving DecidableEq, Repr, Fintype

/-- The value type `HdStSamplerParameters` (fields as used by
`HdStSamplerParameters::operator==` in the source). -/
structure HdStSamplerParameters where
  wrapS : HdWrap
  wrapT : HdWrap
  wrapR : HdWrap
  minFilter : HdMinFilter
  magFilter : HdMagFilter
  deriving DecidableEq, Repr

/-- `HdStSamplerParameters::operator==`: attribute-wise comparison of the
five fields, in source order. -/
def HdStSamplerParameters.opEq (a other : HdStSamplerParameters) : Bool :=
  (decide (a.wrapS = other.wrapS)) &&
  (decide (a.wrapT = other.wrapT)) &&
  (decide (a.wrapR = other.wrapR)) &&
  (decide (a.minFilter = other.minFilter)) &&
  (decide (a.magFilter = other.magFilter))

/-- `HdStSamplerParameters::operator!=`: negation of `operator==`. -/
def HdStSamplerParameters.opNe (a other : HdStSamplerParameters) : Bool :=
  !(a.opEq other)

/-- A `HgiTexture` as seen by this file: either an OpenGL texture
(`HgiGLTexture`, carrying its `GetTextureId`) or a texture of some other
backend (the `dynamic_cast<HgiGLTexture*>` in the source then yields null). -/
inductive HgiTexture where
  | gl (textureId : Nat)
  | other
  deriving DecidableEq, Repr

/-- `HgiTextureHandle`: its `Get()` either returns a texture or null. -/
abbrev HgiTextureHandle : Type := Option HgiTexture

/-- GL sampler-parameter names used by `_GenGLSampler`. -/
inductive GLSamplerPname where
  | wrapS
  | wrapT
  | wrapR
  | minFilter
  | magFilter
  deriving DecidableEq, Repr

/-- One device (OpenGL) call issued by the source file, recorded with the
arguments the core passes to it. The wrap/filter values are recorded as the
`Hd` enum values handed to the external `HdStGLConversions` binding layer
(the conversion itself is outside this core). -/
inductive DeviceCall where
  | glGenSamplers (result : Nat)
  | glSamplerParameteriWrap (sampler : Nat) (pname : GLSamplerPname) (w : HdWrap)
  | glSamplerParameteriMinFilter (sampler : Nat) (f : HdMinFilter)
  | glSamplerParameteriMagFilter (sampler : Nat) (f : HdMagFilter)
  | glSamplerParameterBorderColor (sampler : Nat)
  | glSamplerParameterMaxAnisotropy (sampler : Nat)
  | glfPostPendingGLErrors
  | glGetTextureSamplerHandleARB (textureName samplerName : Nat)
  | glGetTextureHandleARB (textureName : Nat)
  | glMakeTextureHandleResidentARB (handle : Nat)
  | glMakeTextureHandleNonResidentARB (handle : Nat)
  | glDeleteSamplers (samplerName : Nat)
  | tfCodingError
  deriving DecidableEq, Repr

/-- The device oracle: the values the OpenGL driver returns for the calls
whose results the source uses. -/
structure Device where
  genSamplerName : Nat
  getTextureSamplerHandle : Nat → Nat → Nat
  getTextureHandle : Nat → Nat

/-- Number of calls in a trace satisfying `p`. -/
def countCalls (p : DeviceCall → Bool) (tr : List DeviceCall) : Nat :=
  (tr.filter p).length

def DeviceCall.isGenSamplers : DeviceCall → Bool
  | .glGenSamplers _ => true
  | _ => false

def DeviceCall.isResident : DeviceCall → Bool
  | .glMakeTextureHandleResidentARB _ => true
  | _ => false

def DeviceCall.isNonResident : DeviceCall → Bool
  | .glMakeTextureHandleNonResidentARB _ => true
  | _ => false

def DeviceCall.isDeleteSamplers : DeviceCall → Bool
  | .glDeleteSamplers _ => true
  | _ => false

def DeviceCall.isHandleQuery : DeviceCall → Bool
  | .glGetTextureSamplerHandleARB _ _ => true
  | .glGetTextureHandleARB _ => true
  | _ => false

def DeviceCall.isCodingError : DeviceCall → Bool
  | .tfCodingError => true
  | _ => false

/-- `_GenGLSampler`: generates a sampler name and configures wrap-S/T/R, the
min and mag filters, the fixed border color and the fixed max anisotropy,
then drains pending GL errors. -/
def _GenGLSampler (samplerParameters : HdStSamplerParameters) (dev : Device) :
    Nat × List DeviceCall :=
  let result := dev.genSamplerName
  (result,
    [DeviceCall.glGenSamplers result,
     DeviceCall.glSamplerParameteriWrap result GLSamplerPname.wrapS
       samplerParameters.wrapS,
     DeviceCall.glSamplerParameteriWrap result GLSamplerPname.wrapT
       samplerParameters.wrapT,
     DeviceCall.glSamplerParameteriWrap result GLSamplerPname.wrapR
       samplerParameters.wrapR,
     DeviceCall.glSamplerParameteriMinFilter result samplerParameters.minFilter,
     DeviceCall.glSamplerParameteriMagFilter result samplerParameters.magFilter,
     DeviceCall.glSamplerParameterBorderColor result,
     DeviceCall.glSamplerParameterMaxAnisotropy result,
     DeviceCall.glfPostPendingGLErrors])

/-- `_GenGLTextureSamplerHandle`: derive a bindless sampler+texture handle.
Early-returns 0 (in source order) when the create flag is false, the texture
handle is null, the texture is not an OpenGL texture (reporting a coding
error), the GL texture name is 0, or the sampler name is 0; otherwise
queries the handle and immediately marks it resident. -/
def _GenGLTextureSamplerHandle (textureHandle : HgiTextureHandle)
    (samplerName : Nat) (createBindlessHandle : Bool) (dev : Device) :
    Nat × List DeviceCall :=
  if !createBindlessHandle then
    (0, [])
  else
    match textureHandle with
    | none => (0, [])
    | some HgiTexture.other => (0, [DeviceCall.tfCodingError])
    | some (HgiTexture.gl textureName) =>
      if textureName = 0 then
        (0, [])
      else if samplerName = 0 then
        (0, [])
      else
        let result := dev.getTextureSamplerHandle textureName samplerName
        (result,
          [DeviceCall.glGetTextureSamplerHandleARB textureName samplerName,
           DeviceCall.glMakeTextureHandleResidentARB result,
           DeviceCall.glfPostPendingGLErrors])

/-- `_GenGlTextureHandle`: derive a bindless texture-only handle.
Early-returns 0 when the create flag is false or the texture name is 0;
otherwise queries the handle and immediately marks it resident. -/
def _GenGlTextureHandle (textureName : Nat) (createGLTextureHandle : Bool)
    (dev : Device) : Nat × List DeviceCall :=
  if !createGLTextureHandle then
    (0, [])
  else if textureName = 0 then
    (0, [])
  else
    let result := dev.getTextureHandle textureName
    (result,
      [DeviceCall.glGetTextureHandleARB textureName,
       DeviceCall.glMakeTextureHandleResidentARB result,
       DeviceCall.glfPostPendingGLErrors])

/-- `_ResolveSamplerParameter`: the source mutates `*parameter` through two
sequential `if`s; here the final value is returned. -/
def _ResolveSamplerParameter (textureOpinion : HdWrap) (parameter : HdWrap) :
    HdWrap :=
  let p1 :=
    if parameter = HdWrap.HdWrapNoOpinion then textureOpinion else parameter
  if p1 = HdWrap.HdWrapLegacyNoOpinionFallbackRepeat then
    if textureOpinion = HdWrap.HdWrapNoOpinion then
      HdWrap.HdWrapRepeat
    else
      textureOpinion
  else
    p1

/-- `HdStUvTextureObject` as consumed by this file: its authored wrap
metadata (`GetWrapParameters`) and its GPU texture (`GetTexture`). -/
structure HdStUvTextureObject where
  wrapParameters : HdWrap × HdWrap
  texture : HgiTextureHandle

/-- `_ResolveUvSamplerParameters`: resolve `wrapS` and `wrapT` against the
texture's wrap metadata; the other fields are copied unchanged. -/
def _ResolveUvSamplerParameters (texture : HdStUvTextureObject)
    (samplerParameters : HdStSamplerParameters) : HdStSamplerParameters :=
  { samplerParameters with
      wrapS := _ResolveSamplerParameter texture.wrapParameters.1
                 samplerParameters.wrapS
      wrapT := _ResolveSamplerParameter texture.wrapParameters.2
                 samplerParameters.wrapT }

/-- The state held by a constructed `HdStUvSamplerObject`. -/
structure HdStUvSamplerObject where
  _glSamplerName : Nat
  _glTextureSamplerHandle : Nat
  deriving DecidableEq, Repr

/-- `HdStUvSamplerObject::HdStUvSamplerObject`: build the GL sampler from
the resolved parameters, then derive the bindless sampler+texture handle. -/
def HdStUvSamplerObject.construct (texture : HdStUvTextureObject)
    (samplerParameters : HdStSamplerParameters) (createBindlessHandle : Bool)
    (dev : Device) : HdStUvSamplerObject × List DeviceCall :=
  let g := _GenGLSampler
    (_ResolveUvSamplerParameters texture samplerParameters) dev
  let h := _GenGLTextureSamplerHandle texture.texture g.1
    createBindlessHandle dev
  ({ _glSamplerName := g.1, _glTextureSamplerHandle := h.1 }, g.2 ++ h.2)

/-- `HdStUvSamplerObject::~HdStUvSamplerObject`: delete the GL sampler if
non-zero; never touches the bindless handle. -/
def HdStUvSamplerObject.destruct (o : HdStUvSamplerObject) :
    List DeviceCall :=
  if o._glSamplerName ≠ 0 then
    [DeviceCall.glDeleteSamplers o._glSamplerName]
  else
    []

/-- `HdStFieldTextureObject` as consumed by this file: its GPU texture. -/
structure HdStFieldTextureObject where
  texture : HgiTextureHandle

/-- The state held by a constructed `HdStFieldSamplerObject`. -/
structure HdStFieldSamplerObject where
  _glSamplerName : Nat
  _glTextureSamplerHandle : Nat
  deriving DecidableEq, Repr

/-- `HdStFieldSamplerObject::HdStFieldSamplerObject`: build the GL sampler
directly from the caller parameters (no metadata resolution), then derive
the bindless sampler+texture handle. -/
def HdStFieldSamplerObject.construct (texture : HdStFieldTextureObject)
    (samplerParameters : HdStSamplerParameters) (createBindlessHandle : Bool)
    (dev : Device) : HdStFieldSamplerObject × List DeviceCall :=
  let g := _GenGLSampler samplerParameters dev
  let h := _GenGLTextureSamplerHandle texture.texture g.1
    createBindlessHandle dev
  ({ _glSamplerName := g.1, _glTextureSamplerHandle := h.1 }, g.2 ++ h.2)

/-- `HdStFieldSamplerObject::~HdStFieldSamplerObject`: delete the GL sampler
if non-zero; never touches the bindless handle. -/
def HdStFieldSamplerObject.destruct (o : HdStFieldSamplerObject) :
    List DeviceCall :=
  if o._glSamplerName ≠ 0 then
    [DeviceCall.glDeleteSamplers o._glSamplerName]
  else
    []

/-- `HdStPtexTextureObject` as consumed by this file: the GL texture names
of its texel array and its layout array. -/
structure HdStPtexTextureObject where
  texelGLTextureName : Nat
  layoutGLTextureName : Nat

/-- The state held by a constructed `HdStPtexSamplerObject`. -/
structure HdStPtexSamplerObject where
  _texelsGLTextureHandle : Nat
  _layoutGLTextureHandle : Nat
  deriving DecidableEq, Repr

/-- `HdStPtexSamplerObject::HdStPtexSamplerObject`: derive two texture-only
bindless handles (texel array, then layout array); the sampler parameters
are accepted but ignored. -/
def HdStPtexSamplerObject.construct (ptexTexture : HdStPtexTextureObject)
    (samplerParameters : HdStSamplerParameters) (createBindlessHandle : Bool)
    (dev : Device) : HdStPtexSamplerObject × List DeviceCall :=
  let t := _GenGlTextureHandle ptexTexture.texelGLTextureName
    createBindlessHandle dev
  let l := _GenGlTextureHandle ptexTexture.layoutGLTextureName
    createBindlessHandle dev
  ({ _texelsGLTextureHandle := t.1, _layoutGLTextureHandle := l.1 },
   t.2 ++ l.2)

/-- `HdStPtexSamplerObject::~HdStPtexSamplerObject`: mark each non-zero
handle non-resident, texel array first. -/
def HdStPtexSamplerObject.destruct (o : HdStPtexSamplerObject) :
    List DeviceCall :=
  (if o._texelsGLTextureHandle ≠ 0 then
    [DeviceCall.glMakeTextureHandleNonResidentARB o._texelsGLTextureHandle]
  else []) ++
  (if o._layoutGLTextureHandle ≠ 0 then
    [DeviceCall.glMakeTextureHandleNonResidentARB o._layoutGLTextureHandle]
  else [])

/-- The condition under which `_GenGLTextureSamplerHandle` actually reaches
the device handle query (no guard fires). -/
def samplerTextureHandleDerived (textureHandle : HgiTextureHandle)
    (samplerName : Nat) (createBindlessHandle : Bool) : Bool :=
  createBindlessHandle &&
    (match textureHandle with
     | some (HgiTexture.gl textureName) =>
       !(decide (textureName = 0)) && !(decide (samplerName = 0))
     | _ => false)

/-- The condition under which `_GenGlTextureHandle` actually reaches the
device handle query (no guard fires). -/
def textureHandleDerived (textureName : Nat)
    (createGLTextureHandle : Bool) : Bool :=
  createGLTextureHandle && !(decide (textureName = 0))

/-- A concrete device whose oracle functions return non-zero values,
used to instantiate universally quantified device arguments. -/
def devW : Device where
  genSamplerName := 3
  getTextureSamplerHandle := fun _ _ => 11
  getTextureHandle := fun _ => 13

/-- Concrete sampler parameters. -/
def paramsW : HdStSamplerParameters where
  wrapS := HdWrap.HdWrapClamp
  wrapT := HdWrap.HdWrapRepeat
  wrapR := HdWrap.HdWrapBlack
  minFilter := HdMinFilter.HdMinFilterLinear
  magFilter := HdMagFilter.HdMagFilterNearest

/-- `paramsW` with only the `magFilter` field changed. -/
def paramsW' : HdStSamplerParameters :=
  { paramsW with magFilter := HdMagFilter.HdMagFilterLinear }

/-- The end-to-end UV construction of the spec's §8: texture wrap opinions
(Repeat, NoOpinion), caller parameters (wrapS = NoOpinion, wrapT = Clamp,
minFilter = Linear, magFilter = Nearest), `createBindlessHandle = false`. -/
def uvEndToEnd (wrapR : HdWrap) (tex : HgiTextureHandle) (dev : Device) :
    HdStUvSamplerObject × List DeviceCall :=
  HdStUvSamplerObject.construct
    ⟨(HdWrap.HdWrapRepeat, HdWrap.HdWrapNoOpinion), tex⟩
    ⟨HdWrap.HdWrapNoOpinion, HdWrap.HdWrapClamp, wrapR,
     HdMinFilter.HdMinFilterLinear, HdMagFilter.HdMagFilterNearest⟩
    false dev

lemma countCalls_append (p : DeviceCall → Bool) (a b : List DeviceCall) :
    countCalls p (a ++ b) = countCalls p a + countCalls p b := by
  simp [countCalls, List.filter_append]

lemma genGlTextureHandle_no_genSamplers (textureName : Nat) (flag : Bool)
    (dev : Device) :
    countCalls DeviceCall.isGenSamplers
      (_GenGlTextureHandle textureName flag dev).2 = 0 := by
  by_cases h : flag = true <;> by_cases h2 : textureName = 0 <;>
    simp [_GenGlTextureHandle, h, h2, countCalls, DeviceCall.isGenSamplers]

lemma opEq_iff (a b : HdStSamplerParameters) :
    a.opEq b = true ↔ a = b := by
  cases a; cases b
  simp [HdStSamplerParameters.opEq, HdStSamplerParameters.mk.injEq, and_assoc]

/-- C1: the claim that the resolved wrap value is never `NoOpinion` and
never `LegacyNoOpinionFallbackRepeat` fails: with texture opinion
`NoOpinion` and caller parameter `NoOpinion` the resolver returns
`NoOpinion`, and with texture opinion `LegacyNoOpinionFallbackRepeat` and
caller parameter `NoOpinion` it returns `LegacyNoOpinionFallbackRepeat`. -/
theorem resolveWrap_sentinel_counterexample :
    _ResolveSamplerParameter HdWrap.HdWrapNoOpinion HdWrap.HdWrapNoOpinion =
      HdWrap.HdWrapNoOpinion ∧
    _ResolveSamplerParameter HdWrap.HdWrapLegacyNoOpinionFallbackRepeat
        HdWrap.HdWrapNoOpinion =
      HdWrap.HdWrapLegacyNoOpinionFallbackRepeat := by
  decide

/-- C1 (amended): the resolved wrap value is `NoOpinion` or
`LegacyNoOpinionFallbackRepeat` exactly for the pairs
(textureOpinion = NoOpinion, callerParameter = NoOpinion),
(textureOpinion = Legacy, callerParameter = NoOpinion) and
(textureOpinion = Legacy, callerParameter = Legacy); for every other pair
it is neither. -/
theorem resolveWrap_sentinel_exact (t p : HdWrap) :
    (_ResolveSamplerParameter t p = HdWrap.HdWrapNoOpinion ∨
     _ResolveSamplerParameter t p =
       HdWrap.HdWrapLegacyNoOpinionFallbackRepeat) ↔
    ((t = HdWrap.HdWrapNoOpinion ∧ p = HdWrap.HdWrapNoOpinion) ∨
     (t = HdWrap.HdWrapLegacyNoOpinionFallbackRepeat ∧
      (p = HdWrap.HdWrapNoOpinion ∨
       p = HdWrap.HdWrapLegacyNoOpinionFallbackRepeat))) := by
  revert t p; decide

/-- C2: destruction of a UV or Field sampler object never issues a
make-non-resident call, and issues exactly one delete-sampler call (on the
stored sampler name) if and only if that name is non-zero. -/
theorem uv_field_destruction_policy (o : HdStUvSamplerObject)
    (f : HdStFieldSamplerObject) :
    countCalls DeviceCall.isNonResident o.destruct = 0 ∧
    (DeviceCall.glDeleteSamplers o._glSamplerName ∈ o.destruct ↔
      o._glSamplerName ≠ 0) ∧
    countCalls DeviceCall.isDeleteSamplers o.destruct =
      (if o._glSamplerName ≠ 0 then 1 else 0) ∧
    countCalls DeviceCall.isNonResident f.destruct = 0 ∧
    (DeviceCall.glDeleteSamplers f._glSamplerName ∈ f.destruct ↔
      f._glSamplerName ≠ 0) ∧
    countCalls DeviceCall.isDeleteSamplers f.destruct =
      (if f._glSamplerName ≠ 0 then 1 else 0) := by
  by_cases h : o._glSamplerName = 0 <;> by_cases h2 : f._glSamplerName = 0 <;>
    simp [HdStUvSamplerObject.destruct, HdStFieldSamplerObject.destruct,
      countCalls, DeviceCall.isNonResident, DeviceCall.isDeleteSamplers, h, h2]

/-- C3: Ptex construction never allocates a device sampler state (no
gen-samplers call) and is independent of the sampler parameters; Ptex
destruction issues exactly one make-non-resident call per non-zero handle
held (texel-array and layout-array handles). -/
theorem ptex_construction_destruction (ptexTexture : HdStPtexTextureObject)
    (p q : HdStSamplerParameters) (flag : Bool) (dev : Device)
    (o : HdStPtexSamplerObject) :
    countCalls DeviceCall.isGenSamplers
      (HdStPtexSamplerObject.construct ptexTexture p flag dev).2 = 0 ∧
    HdStPtexSamplerObject.construct ptexTexture p flag dev =
      HdStPtexSamplerObject.construct ptexTexture q flag dev ∧
    countCalls DeviceCall.isNonResident o.destruct =
      ((if o._texelsGLTextureHandle ≠ 0 then 1 else 0) +
       (if o._layoutGLTextureHandle ≠ 0 then 1 else 0)) ∧
    (DeviceCall.glMakeTextureHandleNonResidentARB o._texelsGLTextureHandle ∈
        o.destruct ↔ o._texelsGLTextureHandle ≠ 0) ∧
    (DeviceCall.glMakeTextureHandleNonResidentARB o._layoutGLTextureHandle ∈
        o.destruct ↔ o._layoutGLTextureHandle ≠ 0) := by
  refine ⟨?_, rfl, ?_, ?_, ?_⟩
  · simp [HdStPtexSamplerObject.construct, countCalls_append,
      genGlTextureHandle_no_genSamplers]
  all_goals
    by_cases h : o._texelsGLTextureHandle = 0 <;>
      by_cases h2 : o._layoutGLTextureHandle = 0 <;>
        simp [HdStPtexSamplerObject.destruct, countCalls,
          DeviceCall.isNonResident, h, h2] <;>
        omega

/-- C4: each single invocation of `_GenGLTextureSamplerHandle` or
`_GenGlTextureHandle` issues at most one make-resident call: exactly one
when the derivation reaches the device handle query, zero when a guard
causes the zero-handle early return. -/
theorem bindless_derivation_residency (th : HgiTextureHandle)
    (sn tn : Nat) (flag flag2 : Bool) (dev : Device) :
    countCalls DeviceCall.isResident
        (_GenGLTextureSamplerHandle th sn flag dev).2 =
      (if samplerTextureHandleDerived th sn flag then 1 else 0) ∧
    countCalls DeviceCall.isResident
        (_GenGLTextureSamplerHandle th sn flag dev).2 ≤ 1 ∧
    countCalls DeviceCall.isResident (_GenGlTextureHandle tn flag2 dev).2 =
      (if textureHandleDerived tn flag2 then 1 else 0) ∧
    countCalls DeviceCall.isResident (_GenGlTextureHandle tn flag2 dev).2 ≤
      1 := by
  have h1 : countCalls DeviceCall.isResident
      (_GenGLTextureSamplerHandle th sn flag dev).2 =
      (if samplerTextureHandleDerived th sn flag then 1 else 0) := by
    cases th with
    | none =>
      cases flag <;>
        simp [_GenGLTextureSamplerHandle, samplerTextureHandleDerived,
          countCalls, DeviceCall.isResident]
    | some tex =>
      cases tex with
      | gl n =>
        by_cases hn : n = 0 <;> by_cases hs : sn = 0 <;> cases flag <;>
          simp [_GenGLTextureSamplerHandle, samplerTextureHandleDerived,
            countCalls, DeviceCall.isResident, hn, hs]
      | other =>
        cases flag <;>
          simp [_GenGLTextureSamplerHandle, samplerTextureHandleDerived,
            countCalls, DeviceCall.isResident]
  have h2 : countCalls DeviceCall.isResident
      (_GenGlTextureHandle tn flag2 dev).2 =
      (if textureHandleDerived tn flag2 then 1 else 0) := by
    by_cases hn : tn = 0 <;> cases flag2 <;>
      simp [_GenGlTextureHandle, textureHandleDerived, countCalls,
        DeviceCall.isResident, hn]
  refine ⟨h1, ?_, h2, ?_⟩
  · rw [h1]; split <;> simp
  · rw [h2]; split <;> simp

/-- C5: provided the device handle queries return non-zero values,
`_GenGLTextureSamplerHandle` returns a zero handle exactly when the create
flag is false, the texture is absent, the texture is not an OpenGL texture,
the GL texture name is zero, or the sampler name is zero; in all of these
cases no device handle query is issued, and a coding error is reported
exactly in the not-an-OpenGL-texture case (with the create flag set).
`_GenGlTextureHandle` returns zero, with no device call at all, exactly
when the create flag is false or the texture name is zero. -/
theorem bindless_derivation_zero_guards (th : HgiTextureHandle)
    (sn tn : Nat) (flag flag2 : Bool) (dev : Device)
    (hq : ∀ a b, dev.getTextureSamplerHandle a b ≠ 0)
    (ht : ∀ a, dev.getTextureHandle a ≠ 0) :
    ((_GenGLTextureSamplerHandle th sn flag dev).1 = 0 ↔
      (flag = false ∨ th = none ∨ th = some HgiTexture.other ∨
       th = some (HgiTexture.gl 0) ∨ sn = 0)) ∧
    ((flag = false ∨ th = none ∨ th = some HgiTexture.other ∨
       th = some (HgiTexture.gl 0) ∨ sn = 0) →
      countCalls DeviceCall.isHandleQuery
        (_GenGLTextureSamplerHandle th sn flag dev).2 = 0) ∧
    (DeviceCall.tfCodingError ∈ (_GenGLTextureSamplerHandle th sn flag dev).2 ↔
      (flag = true ∧ th = some HgiTexture.other)) ∧
    ((_GenGlTextureHandle tn flag2 dev).1 = 0 ↔ (flag2 = false ∨ tn = 0)) ∧
    ((flag2 = false ∨ tn = 0) → (_GenGlTextureHandle tn flag2 dev).2 = []) := by
  have hgl : ∀ n s, n ≠ 0 → s ≠ 0 →
      _GenGLTextureSamplerHandle (some (HgiTexture.gl n)) s true dev =
        (dev.getTextureSamplerHandle n s,
         [DeviceCall.glGetTextureSamplerHandleARB n s,
          DeviceCall.glMakeTextureHandleResidentARB
            (dev.getTextureSamplerHandle n s),
          DeviceCall.glfPostPendingGLErrors]) := by
    intro n s hn hs
    simp [_GenGLTextureSamplerHandle, hn, hs]
  refine ⟨?_, ?_, ?_, ?_, ?_⟩
  · cases th with
    | none => cases flag <;> simp [_GenGLTextureSamplerHandle]
    | some tex =>
      cases tex with
      | gl n =>
        by_cases hn : n = 0 <;> by_cases hs : sn = 0 <;> cases flag <;>
          simp [_GenGLTextureSamplerHandle, hn, hs, hq n sn]
      | other => cases flag <;> simp [_GenGLTextureSamplerHandle]
  · cases th with
    | none =>
      cases flag <;>
        simp [_GenGLTextureSamplerHandle, countCalls, DeviceCall.isHandleQuery]
    | some tex =>
      cases tex with
      | gl n =>
        by_cases hn : n = 0 <;> by_cases hs : sn = 0 <;> cases flag <;>
          simp [_GenGLTextureSamplerHandle, countCalls,
            DeviceCall.isHandleQuery, hn, hs]
      | other =>
        cases flag <;>
          simp [_GenGLTextureSamplerHandle, countCalls,
            DeviceCall.isHandleQuery]
  · cases th with
    | none => cases flag <;> simp [_GenGLTextureSamplerHandle]
    | some tex =>
      cases tex with
      | gl n =>
        by_cases hn : n = 0 <;> by_cases hs : sn = 0 <;> cases flag <;>
          simp [_GenGLTextureSamplerHandle, hn, hs]
      | other => cases flag <;> simp [_GenGLTextureSamplerHandle]
  · by_cases hn : tn = 0 <;> cases flag2 <;>
      simp [_GenGlTextureHandle, hn, ht tn]
  · by_cases hn : tn = 0 <;> cases flag2 <;> simp [_GenGlTextureHandle, hn]

/-- Witness for C5 at concrete inputs: texture present with GL name 0,
sampler name 5, create flags true, texture-only name 0, on the concrete
device `devW`. -/
theorem bindless_derivation_zero_guards_witness :
    ((_GenGLTextureSamplerHandle (some (HgiTexture.gl 0)) 5 true devW).1 = 0 ↔
      (true = false ∨ (some (HgiTexture.gl 0) : HgiTextureHandle) = none ∨
       (some (HgiTexture.gl 0) : HgiTextureHandle) = some HgiTexture.other ∨
       (some (HgiTexture.gl 0) : HgiTextureHandle) =
         some (HgiTexture.gl 0) ∨ (5 : Nat) = 0)) ∧
    ((true = false ∨ (some (HgiTexture.gl 0) : HgiTextureHandle) = none ∨
       (some (HgiTexture.gl 0) : HgiTextureHandle) = some HgiTexture.other ∨
       (some (HgiTexture.gl 0) : HgiTextureHandle) =
         some (HgiTexture.gl 0) ∨ (5 : Nat) = 0) →
      countCalls DeviceCall.isHandleQuery
        (_GenGLTextureSamplerHandle (some (HgiTexture.gl 0)) 5 true devW).2 =
        0) ∧
    (DeviceCall.tfCodingError ∈
        (_GenGLTextureSamplerHandle (some (HgiTexture.gl 0)) 5 true devW).2 ↔
      (true = true ∧ (some (HgiTexture.gl 0) : HgiTextureHandle) =
        some HgiTexture.other)) ∧
    ((_GenGlTextureHandle 0 true devW).1 = 0 ↔
      (true = false ∨ (0 : Nat) = 0)) ∧
    ((true = false ∨ (0 : Nat) = 0) →
      (_GenGlTextureHandle 0 true devW).2 = []) :=
  bindless_derivation_zero_guards (some (HgiTexture.gl 0)) 5 0 true true devW
    (by intro a b; simp [devW]) (by intro a; simp [devW])

/-- C6: the spec's specific resolution cases: (Repeat, NoOpinion) resolves
to Repeat; (NoOpinion, Legacy) to Repeat; (Clamp, Legacy) to Clamp; and an
explicit caller opinion (Mirror) always wins, for every texture opinion. -/
theorem resolveWrap_specific_cases :
    _ResolveSamplerParameter HdWrap.HdWrapRepeat HdWrap.HdWrapNoOpinion =
      HdWrap.HdWrapRepeat ∧
    _ResolveSamplerParameter HdWrap.HdWrapNoOpinion
        HdWrap.HdWrapLegacyNoOpinionFallbackRepeat = HdWrap.HdWrapRepeat ∧
    _ResolveSamplerParameter HdWrap.HdWrapClamp
        HdWrap.HdWrapLegacyNoOpinionFallbackRepeat = HdWrap.HdWrapClamp ∧
    ∀ t, _ResolveSamplerParameter t HdWrap.HdWrapMirror =
      HdWrap.HdWrapMirror := by
  refine ⟨by decide, by decide, by decide, by decide⟩

/-- C7: the end-to-end UV construction with texture opinions
(Repeat, NoOpinion), caller parameters (NoOpinion, Clamp, Linear, Nearest)
and `createBindlessHandle = false` configures the created device sampler
with wrapS = Repeat and wrapT = Clamp, and the bindless sampler-texture
handle is zero. -/
theorem uv_end_to_end (wrapR : HdWrap) (tex : HgiTextureHandle)
    (dev : Device) :
    DeviceCall.glSamplerParameteriWrap
        (uvEndToEnd wrapR tex dev).1._glSamplerName GLSamplerPname.wrapS
        HdWrap.HdWrapRepeat ∈ (uvEndToEnd wrapR tex dev).2 ∧
    DeviceCall.glSamplerParameteriWrap
        (uvEndToEnd wrapR tex dev).1._glSamplerName GLSamplerPname.wrapT
        HdWrap.HdWrapClamp ∈ (uvEndToEnd wrapR tex dev).2 ∧
    (uvEndToEnd wrapR tex dev).1._glTextureSamplerHandle = 0 := by
  simp [uvEndToEnd, HdStUvSamplerObject.construct, _GenGLSampler,
    _GenGLTextureSamplerHandle, _ResolveUvSamplerParameters,
    _ResolveSamplerParameter]

/-- C8: UV parameter resolution changes at most wrapS and wrapT: the wrapR,
minFilter and magFilter fields of the result equal those of the input. -/
theorem uv_resolution_preserves_other_fields (texture : HdStUvTextureObject)
    (p : HdStSamplerParameters) :
    (_ResolveUvSamplerParameters texture p).wrapR = p.wrapR ∧
    (_ResolveUvSamplerParameters texture p).minFilter = p.minFilter ∧
    (_ResolveUvSamplerParameters texture p).magFilter = p.magFilter :=
  ⟨rfl, rfl, rfl⟩

/-- C9: `HdStSamplerParameters` equality is attribute-wise over the five
fields: reflexive, symmetric, agreement on all five fields gives equality,
differing only in magFilter gives inequality, and `operator!=` is the
negation of `operator==`. -/
theorem samplerParameters_equality (a b : HdStSamplerParameters) :
    a.opEq a = true ∧
    a.opEq b = b.opEq a ∧
    (a.wrapS = b.wrapS ∧ a.wrapT = b.wrapT ∧ a.wrapR = b.wrapR ∧
      a.minFilter = b.minFilter ∧ a.magFilter = b.magFilter →
      a.opEq b = true) ∧
    (a.wrapS = b.wrapS → a.wrapT = b.wrapT → a.wrapR = b.wrapR →
      a.minFilter = b.minFilter → a.magFilter ≠ b.magFilter →
      a.opEq b = false) ∧
    a.opNe b = !(a.opEq b) := by
  refine ⟨(opEq_iff a a).2 rfl, ?_, ?_, ?_, rfl⟩
  · rw [Bool.eq_iff_iff, opEq_iff, opEq_iff]
    exact eq_comm
  · intro hfields
    apply (opEq_iff a b).2
    cases a; cases b
    simp only [HdStSamplerParameters.mk.injEq]
    exact hfields
  · intro h1 h2 h3 h4 h5
    cases hEq : a.opEq b with
    | false => rfl
    | true =>
      exact absurd (congrArg HdStSamplerParameters.magFilter
        ((opEq_iff a b).1 hEq)) h5

/-- Witness for C9 at concrete inputs: `paramsW` compared with itself and
with `paramsW'`, which differs only in magFilter. -/
theorem samplerParameters_equality_witness :
    paramsW.opEq paramsW = true ∧ paramsW.opEq paramsW' = false :=
  ⟨(samplerParameters_equality paramsW paramsW).1,
   (samplerParameters_equality paramsW paramsW').2.2.2.1
     rfl rfl rfl rfl (by decide)⟩

/-- C10: the wrap resolver is idempotent for a fixed texture opinion:
resolving the already-resolved value again returns it unchanged. -/
theorem resolveWrap_idempotent (t p : HdWrap) :
    _ResolveSamplerParameter t (_ResolveSamplerParameter t p) =
      _ResolveSamplerParameter t p := by
  revert t p; decide
